import Mathlib

/-!
Verification development for the QA-matrix defect-pairing repository.

The TypeScript sources are embedded shallowly:
* JS numbers are modelled as rationals (`ℚ`); the only place the JS `NaN`
  value could arise in the embedded fragments is `Number` applied to a
  non-numeric spreadsheet cell, which the embedding maps through `Option ℚ`
  (`none` playing the role of `NaN`).
* `null`/`undefined` data is modelled with `Option`.
* Spreadsheet cells (the values delivered by the XLSX layer and produced by
  the CSV export) are modelled by the `Cell` type below.
* Database rows (`qa_matrix_entries`, `dvx_defects`) are modelled as
  structures whose fields are `Option`-valued where the JS code guards with
  `||` / `??` / truthiness.
-/

namespace QAMatrix

/-- A spreadsheet / CSV cell as seen by the import and export code:
absent (`undefined`), a number, or a string. -/
inductive Cell where
  | empty : Cell
  | num (q : ℚ) : Cell
  | str (s : String) : Cell
  deriving DecidableEq

/-- JS `s.toLowerCase()` (characterwise, structurally evaluable). -/
def jsToLower (s : String) : String :=
  ⟨s.data.map Char.toLower⟩

/-- JS `s.toUpperCase()`. -/
def jsToUpper (s : String) : String :=
  ⟨s.data.map Char.toUpper⟩

/-- JS `s.trim()`: strip leading and trailing whitespace. -/
def jsTrim (s : String) : String :=
  ⟨((s.data.dropWhile Char.isWhitespace).reverse.dropWhile Char.isWhitespace).reverse⟩

/-- JS `Number(s)` on a string: the empty (or all-blank) string parses to `0`,
decimal integer literals parse to their value, anything else is `NaN`
(modelled as `none`). -/
def jsStrToNum (s : String) : Option ℚ :=
  let t := jsTrim s
  if t = "" then some 0
  else
    match t.toNat? with
    | some n => some (n : ℚ)
    | none =>
      if t.startsWith "-" then ((t.drop 1).toNat?).map (fun n => -(n : ℚ))
      else none

/-- JS `Number(x)` on a cell; `none` models `NaN`. -/
def jsNumber (c : Cell) : Option ℚ :=
  match c with
  | .empty => none
  | .num q => some q
  | .str s => jsStrToNum s

/-- `numOrNull` from `src/src/utils/xlsxImport.ts`: `undefined`, `null`, `""`
and `" "` become `null`; otherwise `Number(val)`, with `NaN` becoming
`null`. -/
def numOrNull (c : Cell) : Option ℚ :=
  match c with
  | .empty => none
  | .num q => some q
  | .str s => if s = "" ∨ s = " " then none else jsStrToNum s

/-- `str` from `src/src/utils/xlsxImport.ts`: `undefined`/`null` become `""`,
otherwise `String(val).trim()`.  (Stringifying a numeric cell is modelled
with `toString`; no theorem below depends on that branch.) -/
def strVal (c : Cell) : String :=
  match c with
  | .empty => ""
  | .num q => jsTrim (toString q)
  | .str s => jsTrim s

/-- JS `x || d` for an optional string (falsy: missing, null, `""`). -/
def jsOrStr (v : Option String) (d : String) : String :=
  match v with
  | none => d
  | some s => if s = "" then d else s

/-- JS `x || d` for an optional number (falsy: missing, null, `0`). -/
def jsOrNum (v : Option ℚ) (d : ℚ) : ℚ :=
  match v with
  | none => d
  | some q => if q = 0 then d else q

/-- JS `Number(x) || 0` (used for the weekly-recurrence columns). -/
def jsNumOr0 (c : Cell) : ℚ :=
  (jsNumber c).getD 0

/-- JS `arr.reduce((a, b) => a + b, 0)`. -/
def jsReduceSum (l : List ℚ) : ℚ :=
  l.foldl (· + ·) 0

/-! ## The Concern data model (`QAMatrixEntry` from `src/types/qaMatrix`) -/

/-- The 11 trim checkpoint scores; `none` is "not inspected". -/
structure TrimScores where
  T10 : Option ℚ
  T20 : Option ℚ
  T30 : Option ℚ
  T40 : Option ℚ
  T50 : Option ℚ
  T60 : Option ℚ
  T70 : Option ℚ
  T80 : Option ℚ
  T90 : Option ℚ
  T100 : Option ℚ
  TPQG : Option ℚ
  deriving DecidableEq

/-- The 15 chassis checkpoint scores. -/
structure ChassisScores where
  C10 : Option ℚ
  C20 : Option ℚ
  C30 : Option ℚ
  C40 : Option ℚ
  C45 : Option ℚ
  P10 : Option ℚ
  P20 : Option ℚ
  P30 : Option ℚ
  C50 : Option ℚ
  C60 : Option ℚ
  C70 : Option ℚ
  RSub : Option ℚ
  TS : Option ℚ
  C80 : Option ℚ
  CPQG : Option ℚ
  deriving DecidableEq

/-- The 11 final-assembly checkpoint scores plus the residual-torque field. -/
structure FinalScores where
  F10 : Option ℚ
  F20 : Option ℚ
  F30 : Option ℚ
  F40 : Option ℚ
  F50 : Option ℚ
  F60 : Option ℚ
  F70 : Option ℚ
  F80 : Option ℚ
  F90 : Option ℚ
  F100 : Option ℚ
  FPQG : Option ℚ
  ResidualTorque : Option ℚ
  deriving DecidableEq

/-- The 11 quality-control method scores (1.1 … 5.3). -/
structure QControlScores where
  freqControl_1_1 : Option ℚ
  visualControl_1_2 : Option ℚ
  periodicAudit_1_3 : Option ℚ
  humanControl_1_4 : Option ℚ
  saeAlert_3_1 : Option ℚ
  freqMeasure_3_2 : Option ℚ
  manualTool_3_3 : Option ℚ
  humanTracking_3_4 : Option ℚ
  autoControl_5_1 : Option ℚ
  impossibility_5_2 : Option ℚ
  saeProhibition_5_3 : Option ℚ
  deriving DecidableEq

/-- The 4 quality-control detail scores. -/
structure QControlDetailScores where
  CVT : Option ℚ
  SHOWER : Option ℚ
  DynamicUB : Option ℚ
  CC4 : Option ℚ
  deriving DecidableEq

/-- The MFG / Quality / Plant control-rating triple. -/
structure ControlRating where
  MFG : Option ℚ
  Quality : Option ℚ
  Plant : Option ℚ
  deriving DecidableEq

/-- The guaranteed-quality triple. -/
structure GuaranteedQuality where
  Workstation : Option ℚ
  MFG : Option ℚ
  Plant : Option ℚ
  deriving DecidableEq

/-- A QA-matrix Concern entry.  Status fields are plain strings because the
loading code (`dbRowToEntry`) can pass arbitrary stored strings through the
unchecked TS cast `as 'OK' | 'NG'`. -/
structure QAMatrixEntry where
  sNo : ℚ
  source : String
  operationStation : String
  designation : String
  concern : String
  defectCode : String
  defectLocationCode : String
  defectRating : ℚ
  recurrence : ℚ
  weeklyRecurrence : List ℚ
  recurrenceCountPlusDefect : ℚ
  trim : TrimScores
  chassis : ChassisScores
  final : FinalScores
  qControl : QControlScores
  qControlDetail : QControlDetailScores
  controlRating : ControlRating
  guaranteedQuality : GuaranteedQuality
  workstationStatus : String
  mfgStatus : String
  plantStatus : String
  mfgAction : String
  resp : String
  target : String
  deriving DecidableEq

/-- An all-`none` trim group (the JS empty object `{}`). -/
def emptyTrim : TrimScores :=
  ⟨none, none, none, none, none, none, none, none, none, none, none⟩

/-- An all-`none` chassis group. -/
def emptyChassis : ChassisScores :=
  ⟨none, none, none, none, none, none, none, none, none, none, none, none, none, none, none⟩

/-- An all-`none` final group. -/
def emptyFinal : FinalScores :=
  ⟨none, none, none, none, none, none, none, none, none, none, none, none⟩

/-- An all-`none` quality-control group. -/
def emptyQControl : QControlScores :=
  ⟨none, none, none, none, none, none, none, none, none, none, none⟩

/-- An all-`none` quality-control detail group. -/
def emptyQCDetail : QControlDetailScores :=
  ⟨none, none, none, none⟩

/-! ## Loading a stored row (`dbRowToEntry` in `src/src/hooks/useQAMatrixDB.ts`) -/

/-- A stored `qa_matrix_entries` row as the loading code sees it: every field
other than `s_no` may be missing or null. -/
structure DbRow where
  s_no : ℚ
  source : Option String
  operation_station : Option String
  designation : Option String
  concern : Option String
  defect_rating : Option ℚ
  recurrence : Option ℚ
  weekly_recurrence : Option (List ℚ)
  recurrence_count_plus_defect : Option ℚ
  trim : Option TrimScores
  chassis : Option ChassisScores
  final : Option FinalScores
  q_control : Option QControlScores
  q_control_detail : Option QControlDetailScores
  control_rating : Option ControlRating
  guaranteed_quality : Option GuaranteedQuality
  workstation_status : Option String
  mfg_status : Option String
  plant_status : Option String
  defect_code : Option String
  defect_location_code : Option String
  mfg_action : Option String
  resp : Option String
  target : Option String
  deriving DecidableEq

/-- `dbRowToEntry` from `src/src/hooks/useQAMatrixDB.ts` (lines 7–85).
Each `row.x || d` becomes `jsOrStr` / `jsOrNum`; `row.weekly_recurrence ||
[0,0,0,0,0,0]` keeps any present array (JS arrays are truthy, even `[]`);
`(row.trim || {}).T10 ?? null` collapses to the stored optional value. -/
def dbRowToEntry (row : DbRow) : QAMatrixEntry where
  sNo := row.s_no
  source := jsOrStr row.source ""
  operationStation := jsOrStr row.operation_station ""
  designation := jsOrStr row.designation ""
  concern := jsOrStr row.concern ""
  defectRating := jsOrNum row.defect_rating 1
  recurrence := jsOrNum row.recurrence 0
  weeklyRecurrence := row.weekly_recurrence.getD [0, 0, 0, 0, 0, 0]
  recurrenceCountPlusDefect := jsOrNum row.recurrence_count_plus_defect 0
  trim := row.trim.getD emptyTrim
  chassis := row.chassis.getD emptyChassis
  final := row.final.getD emptyFinal
  qControl := row.q_control.getD emptyQControl
  qControlDetail := row.q_control_detail.getD emptyQCDetail
  controlRating := row.control_rating.getD ⟨none, none, none⟩
  guaranteedQuality := row.guaranteed_quality.getD ⟨none, none, none⟩
  workstationStatus := jsOrStr row.workstation_status "NG"
  mfgStatus := jsOrStr row.mfg_status "NG"
  plantStatus := jsOrStr row.plant_status "NG"
  defectCode := jsOrStr row.defect_code ""
  defectLocationCode := jsOrStr row.defect_location_code ""
  mfgAction := jsOrStr row.mfg_action ""
  resp := jsOrStr row.resp ""
  target := jsOrStr row.target ""

/-- A stored row whose fields are all absent. -/
def blankDbRow : DbRow where
  s_no := 1
  source := none
  operation_station := none
  designation := none
  concern := none
  defect_rating := none
  recurrence := none
  weekly_recurrence := none
  recurrence_count_plus_defect := none
  trim := none
  chassis := none
  final := none
  q_control := none
  q_control_detail := none
  control_rating := none
  guaranteed_quality := none
  workstation_status := none
  mfg_status := none
  plant_status := none
  defect_code := none
  defect_location_code := none
  mfg_action := none
  resp := none
  target := none

/-! ## Ratings and status rules

`recalculateStatuses` (from `src/utils/qaCalculations`) is invoked by every
construction path in the repository snapshot but its definition file is not
under `src/`; the functions below are therefore modelled from the README's
"Status Calculation Logic" section, which gives the formulas explicitly. -/

/-- Skip-NA summand: a null score contributes 0. -/
def optD (v : Option ℚ) : ℚ :=
  v.getD 0

/-- Sum of the non-null trim scores. -/
def trimSum (t : TrimScores) : ℚ :=
  optD t.T10 + optD t.T20 + optD t.T30 + optD t.T40 + optD t.T50 + optD t.T60 +
    optD t.T70 + optD t.T80 + optD t.T90 + optD t.T100 + optD t.TPQG

/-- Sum of the non-null chassis scores. -/
def chassisSum (c : ChassisScores) : ℚ :=
  optD c.C10 + optD c.C20 + optD c.C30 + optD c.C40 + optD c.C45 + optD c.P10 +
    optD c.P20 + optD c.P30 + optD c.C50 + optD c.C60 + optD c.C70 + optD c.RSub +
    optD c.TS + optD c.C80 + optD c.CPQG

/-- Sum of the non-null final-assembly scores, excluding residual torque. -/
def finalSumNoRT (f : FinalScores) : ℚ :=
  optD f.F10 + optD f.F20 + optD f.F30 + optD f.F40 + optD f.F50 + optD f.F60 +
    optD f.F70 + optD f.F80 + optD f.F90 + optD f.F100 + optD f.FPQG

/-- Sum of the non-null quality-control method scores. -/
def qControlSum (q : QControlScores) : ℚ :=
  optD q.freqControl_1_1 + optD q.visualControl_1_2 + optD q.periodicAudit_1_3 +
    optD q.humanControl_1_4 + optD q.saeAlert_3_1 + optD q.freqMeasure_3_2 +
    optD q.manualTool_3_3 + optD q.humanTracking_3_4 + optD q.autoControl_5_1 +
    optD q.impossibility_5_2 + optD q.saeProhibition_5_3

/-- Sum of the non-null quality-control detail scores. -/
def qcDetailSum (q : QControlDetailScores) : ℚ :=
  optD q.CVT + optD q.SHOWER + optD q.DynamicUB + optD q.CC4

/-- Modelled from the spec: MFG rating = sum of all non-null values across the
trim, chassis and final score groups, excluding residual torque (README,
"MFG Rating"). -/
def mfgRating (e : QAMatrixEntry) : ℚ :=
  trimSum e.trim + chassisSum e.chassis + finalSumNoRT e.final

/-- Modelled from the spec: Quality rating = sum of all non-null
quality-control method scores (README, "Quality Rating"). -/
def qualityRating (e : QAMatrixEntry) : ℚ :=
  qControlSum e.qControl

/-- Modelled from the spec: Plant rating = residual torque (if present) + all
non-null quality-control scores + all non-null detail scores (README, "Plant
Rating"). -/
def plantRating (e : QAMatrixEntry) : ℚ :=
  optD e.final.ResidualTorque + qControlSum e.qControl + qcDetailSum e.qControlDetail

/-- Modelled from the spec: `recalculateStatuses` from
`src/utils/qaCalculations` is absent from the repository snapshot (only
invoked); its status assignments are modelled from the README's "Status
Rules" block: workstation OK iff `recurrence == 0` and MFG rating ≥ defect
rating; MFG OK iff MFG rating ≥ defect rating; plant OK iff plant rating ≥
defect rating. -/
def recalculateStatuses (e : QAMatrixEntry) : QAMatrixEntry :=
  { e with
    workstationStatus :=
      if e.recurrence = 0 ∧ mfgRating e ≥ e.defectRating then "OK" else "NG"
    mfgStatus := if mfgRating e ≥ e.defectRating then "OK" else "NG"
    plantStatus := if plantRating e ≥ e.defectRating then "OK" else "NG" }

/-! ## Export to CSV (`exportToCSV` row construction, unnamed part_002) -/

/-- Cell written for an optional score: `v ?? ""` (and JS `join` renders a
null array element as the empty string), so null scores export as empty
cells and numbers as numeric cells. -/
def optCell (v : Option ℚ) : Cell :=
  match v with
  | some q => Cell.num q
  | none => Cell.str ""

/-- The data row written by `exportToCSV` for one entry, cell by cell in the
fixed column order (CSV quoting of the text cells is transparent at the
cell level). -/
def exportRow (d : QAMatrixEntry) : List Cell :=
  [Cell.num d.sNo, Cell.str d.source, Cell.str d.operationStation,
    Cell.str d.designation, Cell.str d.concern, Cell.str d.defectCode,
    Cell.str d.defectLocationCode, Cell.num d.defectRating, Cell.num d.recurrence] ++
  d.weeklyRecurrence.map Cell.num ++
  [Cell.num d.recurrenceCountPlusDefect,
    optCell d.trim.T10, optCell d.trim.T20, optCell d.trim.T30, optCell d.trim.T40,
    optCell d.trim.T50, optCell d.trim.T60, optCell d.trim.T70, optCell d.trim.T80,
    optCell d.trim.T90, optCell d.trim.T100, optCell d.trim.TPQG,
    optCell d.chassis.C10, optCell d.chassis.C20, optCell d.chassis.C30,
    optCell d.chassis.C40, optCell d.chassis.C45, optCell d.chassis.P10,
    optCell d.chassis.P20, optCell d.chassis.P30, optCell d.chassis.C50,
    optCell d.chassis.C60, optCell d.chassis.C70, optCell d.chassis.RSub,
    optCell d.chassis.TS, optCell d.chassis.C80, optCell d.chassis.CPQG,
    optCell d.final.F10, optCell d.final.F20, optCell d.final.F30,
    optCell d.final.F40, optCell d.final.F50, optCell d.final.F60,
    optCell d.final.F70, optCell d.final.F80, optCell d.final.F90,
    optCell d.final.F100, optCell d.final.FPQG, optCell d.final.ResidualTorque,
    optCell d.qControl.freqControl_1_1, optCell d.qControl.visualControl_1_2,
    optCell d.qControl.periodicAudit_1_3, optCell d.qControl.humanControl_1_4,
    optCell d.qControl.saeAlert_3_1, optCell d.qControl.freqMeasure_3_2,
    optCell d.qControl.manualTool_3_3, optCell d.qControl.humanTracking_3_4,
    optCell d.qControl.autoControl_5_1, optCell d.qControl.impossibility_5_2,
    optCell d.qControl.saeProhibition_5_3,
    optCell d.qControlDetail.CVT, optCell d.qControlDetail.SHOWER,
    optCell d.qControlDetail.DynamicUB, optCell d.qControlDetail.CC4,
    optCell d.controlRating.MFG, optCell d.controlRating.Quality,
    optCell d.controlRating.Plant,
    Cell.str d.workstationStatus, Cell.str d.mfgStatus, Cell.str d.plantStatus,
    Cell.str d.mfgAction, Cell.str d.resp, Cell.str d.target]

/-! ## Import from a spreadsheet row (`loadFromExcel`, `src/src/utils/xlsxImport.ts`) -/

/-- `r[i]` on a row array: out-of-range access yields `undefined`. -/
def cellAt (r : List Cell) (i : Nat) : Cell :=
  r.getD i Cell.empty

/-- The per-row body of `loadFromExcel` (lines 34–122): positional parsing of
one data row, returning `none` where the source `continue`s (short row,
non-numeric or zero serial number).  `Number(r[7])` for the defect rating is
stored unchecked (`as 1 | 3 | 5`); a `NaN` rating (non-numeric cell) is
outside this numeric model and mapped to 0. -/
def loadFromExcelRow (r : List Cell) : Option QAMatrixEntry :=
  if r.length < 10 then none
  else
    match jsNumber (cellAt r 0) with
    | none => none
    | some sNo =>
      if sNo = 0 then none
      else
        let defectRating := (jsNumber (cellAt r 7)).getD 0
        let weeklyRecurrence :=
          [jsNumOr0 (cellAt r 9), jsNumOr0 (cellAt r 10), jsNumOr0 (cellAt r 11),
            jsNumOr0 (cellAt r 12), jsNumOr0 (cellAt r 13), jsNumOr0 (cellAt r 14)]
        let wsStatusRaw := jsToUpper (strVal (cellAt r 72))
        let mfgStatusRaw := jsToUpper (strVal (cellAt r 73))
        let plantStatusRaw := jsToUpper (strVal (cellAt r 74))
        some (recalculateStatuses
          { sNo := sNo
            source := strVal (cellAt r 1)
            operationStation := strVal (cellAt r 2)
            designation := strVal (cellAt r 3)
            concern := strVal (cellAt r 4)
            defectCode := strVal (cellAt r 5)
            defectLocationCode := strVal (cellAt r 6)
            defectRating := defectRating
            recurrence := jsReduceSum weeklyRecurrence
            weeklyRecurrence := weeklyRecurrence
            recurrenceCountPlusDefect := defectRating + jsReduceSum weeklyRecurrence
            trim :=
              ⟨numOrNull (cellAt r 16), numOrNull (cellAt r 17), numOrNull (cellAt r 18),
                numOrNull (cellAt r 19), numOrNull (cellAt r 20), numOrNull (cellAt r 21),
                numOrNull (cellAt r 22), numOrNull (cellAt r 23), numOrNull (cellAt r 24),
                numOrNull (cellAt r 25), numOrNull (cellAt r 26)⟩
            chassis :=
              ⟨numOrNull (cellAt r 27), numOrNull (cellAt r 28), numOrNull (cellAt r 29),
                numOrNull (cellAt r 30), numOrNull (cellAt r 31), numOrNull (cellAt r 32),
                numOrNull (cellAt r 33), numOrNull (cellAt r 34), numOrNull (cellAt r 35),
                numOrNull (cellAt r 36), numOrNull (cellAt r 37), numOrNull (cellAt r 38),
                numOrNull (cellAt r 39), numOrNull (cellAt r 40), numOrNull (cellAt r 41)⟩
            final :=
              ⟨numOrNull (cellAt r 42), numOrNull (cellAt r 43), numOrNull (cellAt r 44),
                numOrNull (cellAt r 45), numOrNull (cellAt r 46), numOrNull (cellAt r 47),
                numOrNull (cellAt r 48), numOrNull (cellAt r 49), numOrNull (cellAt r 50),
                numOrNull (cellAt r 51), numOrNull (cellAt r 52), numOrNull (cellAt r 53)⟩
            qControl :=
              ⟨numOrNull (cellAt r 54), numOrNull (cellAt r 55), numOrNull (cellAt r 56),
                numOrNull (cellAt r 57), numOrNull (cellAt r 58), numOrNull (cellAt r 59),
                numOrNull (cellAt r 60), numOrNull (cellAt r 61), numOrNull (cellAt r 62),
                numOrNull (cellAt r 63), numOrNull (cellAt r 64)⟩
            qControlDetail :=
              ⟨numOrNull (cellAt r 65), numOrNull (cellAt r 66),
                numOrNull (cellAt r 67), numOrNull (cellAt r 68)⟩
            controlRating :=
              ⟨numOrNull (cellAt r 69), numOrNull (cellAt r 70), numOrNull (cellAt r 71)⟩
            guaranteedQuality := ⟨none, none, none⟩
            workstationStatus := if wsStatusRaw = "OK" then "OK" else "NG"
            mfgStatus := if mfgStatusRaw = "OK" then "OK" else "NG"
            plantStatus := if plantStatusRaw = "OK" then "OK" else "NG"
            mfgAction := strVal (cellAt r 75)
            resp := strVal (cellAt r 76)
            target := strVal (cellAt r 77) })

/-- The defect-rating coercion in `parseSheet` (unnamed part_001, lines
686–687): values other than 1, 3, 5 (including a failed numeric parse)
become 1. -/
def parseSheetDefectRating (drRaw : Option ℚ) : ℚ :=
  match drRaw with
  | some q => if q = 1 ∨ q = 3 ∨ q = 5 then q else 1
  | none => 1

/-! ## Deterministic pairing (`supabase/functions/pair-by-code/index.ts`) -/

/-- A `qa_matrix_entries` row as selected by pair-by-code (`s_no, defect_code,
defect_location_code, concern`); these columns are `TEXT NOT NULL`. -/
structure QaEntryLite where
  s_no : ℚ
  defect_code : String
  defect_location_code : String
  concern : String
  deriving DecidableEq

/-- A `dvx_defects` row as the pairing functions use it. -/
structure DvxDefect where
  id : String
  defect_code : Option String
  location_code : Option String
  pairing_status : String
  pairing_method : Option String
  match_score : Option ℚ
  qa_matrix_sno : Option ℚ
  deriving DecidableEq

/-- The lookup key: both parts trimmed, lower-cased, joined with a separator. -/
def qaKey (code loc : String) : String :=
  jsToLower (jsTrim code) ++ "||" ++ jsToLower (jsTrim loc)

/-- The key computed for a defect: `(dvx.defect_code || "")` and
`(dvx.location_code || "")`. -/
def dvxKey (d : DvxDefect) : String :=
  qaKey (jsOrStr d.defect_code "") (jsOrStr d.location_code "")

/-- JS `Map.set`: replace the binding if the key is present, else append. -/
def mapSet (m : List (String × (ℚ × String))) (k : String) (v : ℚ × String) :
    List (String × (ℚ × String)) :=
  match m with
  | [] => [(k, v)]
  | (k1, v1) :: rest => if k1 = k then (k, v) :: rest else (k1, v1) :: mapSet rest k v

/-- JS `Map.get`. -/
def qaMapGet (m : List (String × (ℚ × String))) (k : String) : Option (ℚ × String) :=
  match m with
  | [] => none
  | (k1, v) :: rest => if k = k1 then some v else qaMapGet rest k

/-- The `qaMap` built by pair-by-code (lines 47–54): only entries with both
`defect_code` and `defect_location_code` truthy (non-empty) are inserted,
keyed case-insensitively on the trimmed pair; `Map.set` lets a later entry
with the same key overwrite an earlier one. -/
def buildQaMap (qas : List QaEntryLite) : List (String × (ℚ × String)) :=
  qas.foldl
    (fun m qa =>
      if qa.defect_code ≠ "" ∧ qa.defect_location_code ≠ "" then
        mapSet m (qaKey qa.defect_code qa.defect_location_code) (qa.s_no, qa.concern)
      else m)
    []

/-- The field assignment in the pair-by-code update call (lines 76–84). -/
def pairUpdateFields (d : DvxDefect) (sno : ℚ) : DvxDefect :=
  { d with
    pairing_status := "paired"
    pairing_method := some "code"
    match_score := some 1
    qa_matrix_sno := some sno }

/-- One `update(...).eq("id", u.id)` call on the defect table: every row with
the matching id gets the new pairing fields, with no precondition on the
current pairing state. -/
def applyCodeUpdate (store : List DvxDefect) (u : String × ℚ) : List DvxDefect :=
  store.map (fun d => if d.id = u.1 then pairUpdateFields d u.2 else d)

/-- The update list computed by pair-by-code's match loop (lines 56–69) from
the defects fetched as `not_paired`. -/
def pairByCodeUpdates (qas : List QaEntryLite) (fetched : List DvxDefect) :
    List (String × ℚ) :=
  fetched.filterMap (fun d => (qaMapGet (buildQaMap qas) (dvxKey d)).map (fun m => (d.id, m.1)))

/-- A full pair-by-code run over the defect table: fetch the `not_paired`
defects, build the lookup, compute the updates, and apply them one by one
(the batching by 100 only groups the same sequential updates). -/
def pairByCodeRun (qas : List QaEntryLite) (store : List DvxDefect) : List DvxDefect :=
  (pairByCodeUpdates qas (store.filter (fun d => d.pairing_status = "not_paired"))).foldl
    applyCodeUpdate store

/-! ## Semantic pairing (`pair-by-semantic`, unnamed part_005) -/

/-- One entry of the `matches` array returned by the oracle tool call. -/
structure AiMatch where
  defectIndex : Nat
  matchedSNo : Option ℚ
  confidence : ℚ
  reason : String
  deriving DecidableEq

/-- The field assignment in the pair-by-semantic update call (lines 227–232). -/
def semanticUpdateFields (d : DvxDefect) (sno conf : ℚ) : DvxDefect :=
  { d with
    pairing_status := "paired"
    pairing_method := some "semantic"
    match_score := some conf
    qa_matrix_sno := some sno }

/-- Processing of one oracle match (lines 222–237): look the defect up in the
batch by index (skip if absent), and update it — keyed by id only — exactly
when `matchedSNo` is non-null and `confidence >= 0.5`. -/
def processSemanticMatch (batch : List DvxDefect) (store : List DvxDefect)
    (m : AiMatch) : List DvxDefect :=
  match batch.get? m.defectIndex with
  | none => store
  | some dvx =>
    match m.matchedSNo with
    | some sno =>
      if m.confidence ≥ 1 / 2 then
        store.map (fun d => if d.id = dvx.id then semanticUpdateFields d sno m.confidence else d)
      else store
    | none => store

/-- Processing of a whole `matches` array for one batch. -/
def processSemanticMatches (batch : List DvxDefect) (ms : List AiMatch)
    (store : List DvxDefect) : List DvxDefect :=
  ms.foldl (processSemanticMatch batch) store

/-- A pair-by-semantic run with the fetched `not_paired` defects as one batch
and a given oracle response. -/
def pairBySemanticRun (store : List DvxDefect) (ms : List AiMatch) : List DvxDefect :=
  processSemanticMatches (store.filter (fun d => d.pairing_status = "not_paired")) ms store

/-! ## Frontend semantic matching (`aiMatchDefects`, unnamed part_003) -/

/-- A DVX entry as submitted to the `match-defects` oracle. -/
structure DVXEntry where
  locationDetails : String
  defectDescription : String
  defectDescriptionDetails : String
  gravity : String
  quantity : ℚ
  deriving DecidableEq

/-- The outcome of one `match-defects` invocation as `aiMatchDefects` branches
on it: a transport error, or a response body with optional `matches` and
optional `error` fields. -/
inductive BatchResponse where
  | invokeError : BatchResponse
  | dataResp (ms : Option (List AiMatch)) (err : Option String) : BatchResponse
  deriving DecidableEq

/-- The batches of 200 with their start indices (`for i += BATCH_SIZE`). -/
def aiBatchesGo (start : Nat) (l : List DVXEntry) : List (Nat × List DVXEntry) :=
  if h : l = [] then []
  else (start, l.take 200) :: aiBatchesGo (start + 200) (l.drop 200)
termination_by l.length
decreasing_by
  have h0 : 0 < l.length := List.length_pos.mpr h
  simp only [List.length_drop]
  omega

/-- The synthesized all-unmatched result for a failed batch
(`batch.map((_, idx) => ...)` in lines 55–60 and 65–70). -/
def synthMatches (start : Nat) (batch : List DVXEntry) (reason : String) : List AiMatch :=
  batch.mapIdx (fun idx _ => ⟨start + idx, none, 0, reason⟩)

/-- `aiMatchDefects` per-batch result handling (lines 49–74): an invocation
error or a response `error` field synthesizes an unmatched entry with a
reason for every defect of the batch; a present `matches` array is returned
as-is; any other response contributes nothing (`return []`). -/
def perBatchResult (start : Nat) (batch : List DVXEntry) (resp : BatchResponse) :
    List AiMatch :=
  match resp with
  | .invokeError => synthMatches start batch "AI matching failed"
  | .dataResp (some ms) _ => ms
  | .dataResp none (some e) => synthMatches start batch e
  | .dataResp none none => []

/-- `aiMatchDefects`: fire one request per batch of 200 (the oracle response
for the batch starting at index `s` is `oracle s`) and flatten the per-batch
results. -/
def aiMatchDefects (entries : List DVXEntry) (oracle : Nat → BatchResponse) : List AiMatch :=
  ((aiBatchesGo 0 entries).map (fun b => perBatchResult b.1 b.2 (oracle b.1))).flatten

/-! ## ApplyAggregator (modelled from the spec) -/

/-- A concern as the apply step sees it: its key and its weekly window. -/
structure ApplyConcern where
  key : ℚ
  weeklyRecurrence : List ℚ
  deriving DecidableEq

/-- A paired defect as the apply step sees it. -/
structure PairedDefect where
  pairedConcernKey : ℚ
  quantity : ℚ
  deriving DecidableEq

/-- Add a quantity into the per-concern accumulator (group-by-key sum). -/
def addQty (m : List (ℚ × ℚ)) (k q : ℚ) : List (ℚ × ℚ) :=
  match m with
  | [] => [(k, q)]
  | (k1, q1) :: rest => if k1 = k then (k1, q1 + q) :: rest else (k1, q1) :: addQty rest k q

/-- Modelled from the spec: the delta set of a reconciliation run — the paired
defects grouped by `pairedConcernKey` with their quantities summed, one
entry per touched concern (spec §4.5; the ApplyAggregator code itself is in
a page component absent from the repository snapshot). -/
def sumByConcern (ds : List PairedDefect) : List (ℚ × ℚ) :=
  ds.foldl (fun m d => addQty m d.pairedConcernKey d.quantity) []

/-- Lookup in the delta set. -/
def getDelta (deltas : List (ℚ × ℚ)) (k : ℚ) : Option ℚ :=
  match deltas with
  | [] => none
  | (k1, q) :: rest => if k = k1 then some q else getDelta rest k

/-- Modelled from the spec: `RecurrenceWindow.addToLatest` adds a delta to the
newest (`W-1`, last) bucket without disturbing older buckets (spec §4.2). -/
def addToLatest (w : List ℚ) (delta : ℚ) : List ℚ :=
  if h : w = [] then w else w.dropLast ++ [w.getLast h + delta]

/-- Modelled from the spec: the inverse step used by Undo — subtract a delta
from the newest bucket (spec §4.5: undo subtracts the same deltas it
added). -/
def subFromLatest (w : List ℚ) (delta : ℚ) : List ℚ :=
  if h : w = [] then w else w.dropLast ++ [w.getLast h - delta]

/-- Modelled from the spec: Apply folds the delta set into the store, calling
`addToLatest` once per touched concern (spec §4.5). -/
def applyRun (store : List ApplyConcern) (ds : List PairedDefect) : List ApplyConcern :=
  store.map (fun c =>
    match getDelta (sumByConcern ds) c.key with
    | some q => { c with weeklyRecurrence := addToLatest c.weeklyRecurrence q }
    | none => c)

/-- Modelled from the spec: Undo subtracts the stored delta set again
(spec §4.5). -/
def undoRun (store : List ApplyConcern) (ds : List PairedDefect) : List ApplyConcern :=
  store.map (fun c =>
    match getDelta (sumByConcern ds) c.key with
    | some q => { c with weeklyRecurrence := subFromLatest c.weeklyRecurrence q }
    | none => c)

/-! ## Concrete instances used by counterexamples and witnesses -/

/-- A stored row whose stored recurrence (5) disagrees with its stored weekly
buckets (all zero). -/
def c3Row : DbRow :=
  { blankDbRow with recurrence := some 5, weekly_recurrence := some [0, 0, 0, 0, 0, 0] }

/-- A stored row whose stored recurrence (6) equals the sum of its stored
weekly buckets. -/
def c3GoodRow : DbRow :=
  { blankDbRow with recurrence := some 6, weekly_recurrence := some [1, 2, 3, 0, 0, 0] }

/-- An import row whose weekly cells are 1, 2, 0, 0, 0, 0. -/
def c3Cells : List Cell :=
  [Cell.num 1, Cell.str "DVX", Cell.str "ST10", Cell.str "TRIM", Cell.str "Leak",
    Cell.str "", Cell.str "", Cell.num 3, Cell.num 9,
    Cell.num 1, Cell.num 2, Cell.num 0, Cell.num 0, Cell.num 0, Cell.num 0]

/-- An import row whose defect-rating cell holds 2 (outside the 1/3/5
domain). -/
def c9Cells : List Cell :=
  [Cell.num 1, Cell.str "DVX", Cell.str "ST10", Cell.str "TRIM", Cell.str "Leak",
    Cell.str "", Cell.str "", Cell.num 2, Cell.num 0,
    Cell.num 0, Cell.num 0, Cell.num 0, Cell.num 0, Cell.num 0, Cell.num 0]

/-- A stored row with a lower-case status string and an empty (but present)
weekly array — both the schema default `[]` and free-form statuses are
storable. -/
def c10Row : DbRow :=
  { blankDbRow with workstation_status := some "ok", weekly_recurrence := some [] }

/-- Per-defect view of one pair-by-code update (used by the proofs): the
defect is re-written exactly when its id matches. -/
def stepDvx (x : DvxDefect) (u : String × ℚ) : DvxDefect :=
  if x.id = u.1 then pairUpdateFields x u.2 else x

/-- Per-defect view of one semantic match (used by the proofs). -/
def semStep (batch : List DvxDefect) (x : DvxDefect) (m : AiMatch) : DvxDefect :=
  match batch.get? m.defectIndex with
  | none => x
  | some dvx =>
    match m.matchedSNo with
    | some sno =>
      if m.confidence ≥ 1 / 2 then
        (if x.id = dvx.id then semanticUpdateFields x sno m.confidence else x)
      else x
    | none => x

/-- A defect uploaded with code A1 at location L2, not yet paired. -/
def c2Defect : DvxDefect :=
  { id := "d1", defect_code := some "A1", location_code := some "L2",
    pairing_status := "not_paired", pairing_method := none,
    match_score := none, qa_matrix_sno := none }

/-- A concern with the same (code, location) pair populated. -/
def c2Qa : QaEntryLite :=
  { s_no := 5, defect_code := "A1", defect_location_code := "L2",
    concern := "Scratch on panel" }

/-- A semantic oracle candidate for the same defect, computed from a snapshot
in which the defect was still unpaired. -/
def c2Match : AiMatch :=
  { defectIndex := 0, matchedSNo := some 9, confidence := 4 / 5,
    reason := "same area" }

/-- The defect after the deterministic run pairs it to concern 5. -/
def c2PairedDefect : DvxDefect :=
  { id := "d1", defect_code := some "A1", location_code := some "L2",
    pairing_status := "paired", pairing_method := some "code",
    match_score := some 1, qa_matrix_sno := some 5 }

/-- The same defect after the semantic update silently re-points it. -/
def c2Overwritten : DvxDefect :=
  { id := "d1", defect_code := some "A1", location_code := some "L2",
    pairing_status := "paired", pairing_method := some "semantic",
    match_score := some (4 / 5), qa_matrix_sno := some 9 }

/-- An unpaired defect with no codes, for the semantic phase. -/
def c1Defect : DvxDefect :=
  { id := "d2", defect_code := none, location_code := none,
    pairing_status := "not_paired", pairing_method := none,
    match_score := none, qa_matrix_sno := none }

/-- A non-null candidate with confidence 0.4 — at or above the spec's 0.3
threshold but below the code's 0.5 threshold. -/
def c1Match : AiMatch :=
  { defectIndex := 0, matchedSNo := some 7, confidence := 2 / 5,
    reason := "plausible" }

/-- A non-null candidate with confidence 0.6, above the code's threshold. -/
def c1AcceptMatch : AiMatch :=
  { defectIndex := 0, matchedSNo := some 7, confidence := 3 / 5,
    reason := "clear match" }

/-- A defect entry submitted to the frontend matching engine. -/
def c7Entry : DVXEntry :=
  { locationDetails := "front door", defectDescription := "scratch",
    defectDescriptionDetails := "scratch on front door", gravity := "B", quantity := 2 }

/-- An oracle whose response carries neither a `matches` array nor an `error`
field (malformed / absent response). -/
def c7Oracle : Nat → BatchResponse :=
  fun _ => BatchResponse.dataResp none none

/-- An oracle whose invocation fails with a transport error. -/
def c7ErrOracle : Nat → BatchResponse :=
  fun _ => BatchResponse.invokeError

/-- A concern with an empty 6-week window, key 1. -/
def c8Concern : ApplyConcern :=
  { key := 1, weeklyRecurrence := [0, 0, 0, 0, 0, 0] }

/-- Two defects with quantities 3 and 4, both paired to concern 1
(Scenario E). -/
def c8Defects : List PairedDefect :=
  [{ pairedConcernKey := 1, quantity := 3 }, { pairedConcernKey := 1, quantity := 4 }]

/-- A Concern whose stored fields satisfy every maintained invariant: trimmed
text, recurrence = sum of the weekly window, RC+DR consistent, statuses
equal to the recalculated statuses, guaranteed quality unset.  It carries
both a null checkpoint (trim T20) and a zero-valued checkpoint (chassis
C10). -/
def c6Good : QAMatrixEntry where
  sNo := 1
  source := "DVX"
  operationStation := "ST10"
  designation := "TRIM"
  concern := "Leak at joint"
  defectCode := "A1"
  defectLocationCode := "L2"
  defectRating := 3
  recurrence := 0
  weeklyRecurrence := [0, 0, 0, 0, 0, 0]
  recurrenceCountPlusDefect := 3
  trim := { emptyTrim with T10 := some 5 }
  chassis := { emptyChassis with C10 := some 0 }
  final := emptyFinal
  qControl := emptyQControl
  qControlDetail := emptyQCDetail
  controlRating := ⟨some 0, none, some 2⟩
  guaranteedQuality := ⟨none, none, none⟩
  workstationStatus := "OK"
  mfgStatus := "OK"
  plantStatus := "NG"
  mfgAction := "Fix seal"
  resp := "QA"
  target := "W20"

/-- The same Concern but with a stored recurrence total (7) that disagrees
with its weekly window (all zero). -/
def c6Bad : QAMatrixEntry :=
  { c6Good with recurrence := 7 }

/-! # Theorems -/

@[simp]
theorem numOrNull_optCell (v : Option ℚ) : numOrNull (optCell v) = v := by
  cases v <;> rfl

@[simp]
theorem strVal_str (s : String) : strVal (Cell.str s) = jsTrim s :=
  rfl

@[simp]
theorem jsNumber_num (q : ℚ) : jsNumber (Cell.num q) = some q :=
  rfl

@[simp]
theorem jsNumOr0_num (q : ℚ) : jsNumOr0 (Cell.num q) = q :=
  rfl

theorem jsReduceSum_go (a : ℚ) (l : List ℚ) : l.foldl (· + ·) a = a + l.sum := by
  induction l generalizing a with
  | nil => simp
  | cons x xs ih => simp [List.foldl_cons, ih, add_assoc]

theorem jsReduceSum_eq_sum (l : List ℚ) : jsReduceSum l = l.sum := by
  simp [jsReduceSum, jsReduceSum_go]

/-- C5: after status recalculation, `mfgStatus` is OK iff the MFG rating
reaches the severity (defect) rating, `plantStatus` is OK iff the plant
rating does, and `workstationStatus` is OK iff additionally the recurrence
total is zero; ties pass, and any nonzero recurrence forces workstation NG
regardless of the rating. -/
theorem c5_status_rules (e : QAMatrixEntry) :
    ((recalculateStatuses e).mfgStatus = "OK" ↔ mfgRating e ≥ e.defectRating) ∧
    ((recalculateStatuses e).plantStatus = "OK" ↔ plantRating e ≥ e.defectRating) ∧
    ((recalculateStatuses e).workstationStatus = "OK" ↔
      (e.recurrence = 0 ∧ mfgRating e ≥ e.defectRating)) := by
  refine ⟨?_, ?_, ?_⟩ <;>
    simp only [recalculateStatuses] <;>
    split <;>
    simp_all

/-- C3 counterexample: `dbRowToEntry` copies the stored recurrence total and
the stored weekly buckets independently, so loading a stored row whose
recurrence (5) disagrees with its weekly buckets (all zero) yields an entry
whose recurrence total is not the sum of its weekly sequence. -/
theorem c3_load_invariant_counterexample :
    (dbRowToEntry c3Row).recurrence ≠ (dbRowToEntry c3Row).weeklyRecurrence.sum := by
  simp [dbRowToEntry, c3Row, blankDbRow, jsOrNum]

/-- C3 amended: the spreadsheet import recomputes the recurrence total as the
sum of the parsed weekly buckets, so every imported entry satisfies the
invariant; loading from storage copies both fields independently, so a
loaded entry satisfies the invariant exactly when the stored row already
does. -/
theorem c3_recurrence_invariant_amended :
    (∀ (r : List Cell) (e : QAMatrixEntry), loadFromExcelRow r = some e →
      e.recurrence = e.weeklyRecurrence.sum) ∧
    (∀ row : DbRow,
      jsOrNum row.recurrence 0 = (row.weekly_recurrence.getD [0, 0, 0, 0, 0, 0]).sum →
      (dbRowToEntry row).recurrence = (dbRowToEntry row).weeklyRecurrence.sum) := by
  constructor
  · intro r e h
    simp only [loadFromExcelRow] at h
    split at h
    · exact absurd h (by simp)
    · split at h
      · exact absurd h (by simp)
      · split at h
        · exact absurd h (by simp)
        · rw [Option.some_inj] at h
          subst h
          simp [recalculateStatuses, jsReduceSum_eq_sum]
  · intro row h
    simpa [dbRowToEntry] using h

/-- Witness for C3 amended at concrete inputs. -/
theorem c3_recurrence_invariant_amended_witness :
    (∃ e, loadFromExcelRow c3Cells = some e ∧ e.recurrence = e.weeklyRecurrence.sum) ∧
    (dbRowToEntry c3GoodRow).recurrence = (dbRowToEntry c3GoodRow).weeklyRecurrence.sum :=
  ⟨⟨_, rfl, c3_recurrence_invariant_amended.1 c3Cells _ rfl⟩,
    c3_recurrence_invariant_amended.2 c3GoodRow
      (by simp [c3GoodRow, blankDbRow, jsOrNum]; norm_num)⟩

/-- C9: the code bug — `loadFromExcel` stores the parsed defect rating through
an unchecked cast, so an import row with rating 2 produces an entry whose
defect (severity) rating is 2, outside the documented 1/3/5 domain; the
sibling import path `parseSheet` coerces the same raw value to 1. -/
theorem c9_defect_rating_code_bug :
    ((loadFromExcelRow c9Cells).map QAMatrixEntry.defectRating) = some 2 ∧
    (2 : ℚ) ≠ 1 ∧ (2 : ℚ) ≠ 3 ∧ (2 : ℚ) ≠ 5 ∧
    parseSheetDefectRating (some 2) = 1 := by
  refine ⟨?_, by norm_num, by norm_num, by norm_num, by decide⟩
  rfl

/-- C10 counterexample: a stored status string other than the literal "OK" is
not normalized to "NG" — the lower-case "ok" is passed through unchanged by
the unchecked cast — and a present-but-empty weekly array (the schema
default) is kept as-is, so the loaded entry does not have the fixed
length-6 shape. -/
theorem c10_load_defaults_counterexample :
    (dbRowToEntry c10Row).workstationStatus = "ok" ∧
    (dbRowToEntry c10Row).workstationStatus ≠ "NG" ∧
    (dbRowToEntry c10Row).workstationStatus ≠ "OK" ∧
    (dbRowToEntry c10Row).weeklyRecurrence = [] := by
  refine ⟨rfl, by decide, by decide, rfl⟩

/-- C10 amended: loading a stored row is total with these defaults — a missing
or null weekly sequence yields six zero buckets but a present array of any
length is kept as-is; a missing defect rating yields 1; a missing score
group yields all-null checkpoints; missing text yields the empty string;
and a missing or empty status yields "NG" while any other non-empty stored
string (such as "ok") is passed through unchanged. -/
theorem c10_load_defaults_amended (row : DbRow) :
    (row.weekly_recurrence = none → (dbRowToEntry row).weeklyRecurrence = [0, 0, 0, 0, 0, 0]) ∧
    (∀ l, row.weekly_recurrence = some l → (dbRowToEntry row).weeklyRecurrence = l) ∧
    (row.defect_rating = none → (dbRowToEntry row).defectRating = 1) ∧
    (row.trim = none → (dbRowToEntry row).trim = emptyTrim) ∧
    (row.source = none → (dbRowToEntry row).source = "") ∧
    ((row.workstation_status = none ∨ row.workstation_status = some "") →
      (dbRowToEntry row).workstationStatus = "NG") ∧
    (∀ s, s ≠ "" → row.workstation_status = some s →
      (dbRowToEntry row).workstationStatus = s) := by
  refine ⟨?_, ?_, ?_, ?_, ?_, ?_, ?_⟩
  · intro h; simp [dbRowToEntry, h]
  · intro l h; simp [dbRowToEntry, h]
  · intro h; simp [dbRowToEntry, jsOrNum, h]
  · intro h; simp [dbRowToEntry, h]
  · intro h; simp [dbRowToEntry, jsOrStr, h]
  · rintro (h | h) <;> simp [dbRowToEntry, jsOrStr, h]
  · intro s hs h; simp [dbRowToEntry, jsOrStr, h, hs]

theorem applyCodeUpdate_eq_map (store : List DvxDefect) (u : String × ℚ) :
    applyCodeUpdate store u = store.map (fun x => stepDvx x u) :=
  rfl

theorem foldl_applyCodeUpdate_get? (us : List (String × ℚ)) (store : List DvxDefect)
    (i : Nat) :
    (us.foldl applyCodeUpdate store).get? i =
      (store.get? i).map (fun d => us.foldl stepDvx d) := by
  induction us generalizing store with
  | nil =>
    simp only [List.foldl_nil]
    cases h : store.get? i <;> rfl
  | cons u us ih =>
    rw [List.foldl_cons, ih, applyCodeUpdate_eq_map, List.get?_map]
    cases h : store.get? i <;> rfl

theorem foldl_stepDvx_of_not_mem {d : DvxDefect} {us : List (String × ℚ)}
    (h : ∀ u ∈ us, u.1 ≠ d.id) :
    us.foldl stepDvx d = d := by
  induction us with
  | nil => rfl
  | cons u us ih =>
    have h1 : u.1 ≠ d.id := h u (List.mem_cons_self u us)
    have step : stepDvx d u = d := by
      unfold stepDvx
      exact if_neg (fun he => h1 he.symm)
    rw [List.foldl_cons, step]
    exact ih (fun v hv => h v (List.mem_cons_of_mem u hv))

theorem foldl_stepDvx_stable {d : DvxDefect} {s : ℚ} {us : List (String × ℚ)}
    (h : ∀ u ∈ us, u.1 = d.id → u.2 = s) :
    us.foldl stepDvx (pairUpdateFields d s) = pairUpdateFields d s := by
  induction us with
  | nil => rfl
  | cons u us ih =>
    have step : stepDvx (pairUpdateFields d s) u = pairUpdateFields d s := by
      unfold stepDvx
      by_cases hu : (pairUpdateFields d s).id = u.1
      · have h2 : u.2 = s := h u (List.mem_cons_self u us) (by exact hu.symm)
        rw [if_pos hu, h2]
        rfl
      · rw [if_neg hu]
    rw [List.foldl_cons, step]
    exact ih (fun v hv => h v (List.mem_cons_of_mem u hv))

theorem foldl_stepDvx_hit {d : DvxDefect} {s : ℚ} {us : List (String × ℚ)}
    (hmem : (d.id, s) ∈ us) (huniq : ∀ u ∈ us, u.1 = d.id → u.2 = s) :
    us.foldl stepDvx d = pairUpdateFields d s := by
  induction us with
  | nil => cases hmem
  | cons u us ih =>
    by_cases hu : u.1 = d.id
    · have h2 : u.2 = s := huniq u (List.mem_cons_self u us) hu
      have step : stepDvx d u = pairUpdateFields d s := by
        unfold stepDvx
        rw [if_pos hu.symm, h2]
      rw [List.foldl_cons, step]
      exact foldl_stepDvx_stable (fun v hv => huniq v (List.mem_cons_of_mem u hv))
    · have step : stepDvx d u = d := by
        unfold stepDvx
        exact if_neg (fun he => hu he.symm)
      rw [List.foldl_cons, step]
      apply ih
      · rcases List.mem_cons.1 hmem with heq | hmem2
        · exact absurd (by rw [← heq]) hu
        · exact hmem2
      · exact fun v hv => huniq v (List.mem_cons_of_mem u hv)

theorem mem_pairByCodeUpdates {qas : List QaEntryLite} {fetched : List DvxDefect}
    {u : String × ℚ} :
    u ∈ pairByCodeUpdates qas fetched ↔
      ∃ d ∈ fetched, ∃ m, qaMapGet (buildQaMap qas) (dvxKey d) = some m ∧
        u = (d.id, m.1) := by
  simp only [pairByCodeUpdates, List.mem_filterMap, Option.map_eq_some']
  constructor
  · rintro ⟨d, hd, m, hm, rfl⟩
    exact ⟨d, hd, m, hm, rfl⟩
  · rintro ⟨d, hd, m, hm, rfl⟩
    exact ⟨d, hd, m, hm, rfl⟩

theorem pairByCodeRun_get? (qas : List QaEntryLite) (store : List DvxDefect)
    (h : (store.map DvxDefect.id).Nodup) (i : Nat) (d : DvxDefect)
    (hd : store.get? i = some d) :
    (pairByCodeRun qas store).get? i = some (
      if d.pairing_status = "not_paired" then
        match qaMapGet (buildQaMap qas) (dvxKey d) with
        | some m => pairUpdateFields d m.1
        | none => d
      else d) := by
  have hdm : d ∈ store := List.get?_mem hd
  have hinj : ∀ x ∈ store, ∀ y ∈ store, x.id = y.id → x = y :=
    fun x hx y hy hxy => List.inj_on_of_nodup_map h hx hy hxy
  rw [pairByCodeRun, foldl_applyCodeUpdate_get?, hd, Option.map_some']
  congr 1
  by_cases hp : d.pairing_status = "not_paired"
  · cases hm : qaMapGet (buildQaMap qas) (dvxKey d) with
    | none =>
      simp only [hp, if_true, hm]
      apply foldl_stepDvx_of_not_mem
      intro u hu hui
      obtain ⟨d2, hd2, m, hm2, hu2⟩ := mem_pairByCodeUpdates.1 hu
      subst hu2
      have hd2s : d2 ∈ store := List.mem_of_mem_filter hd2
      have heq : d2 = d := hinj d2 hd2s d hdm hui
      subst heq
      rw [hm] at hm2
      cases hm2
    | some m =>
      simp only [hp, if_true, hm]
      apply foldl_stepDvx_hit
      · apply mem_pairByCodeUpdates.2
        exact ⟨d, List.mem_filter.2 ⟨hdm, by simp [hp]⟩, m, hm, rfl⟩
      · intro u hu hui
        obtain ⟨d2, hd2, m2, hm2, hu2⟩ := mem_pairByCodeUpdates.1 hu
        subst hu2
        have hd2s : d2 ∈ store := List.mem_of_mem_filter hd2
        have heq : d2 = d := hinj d2 hd2s d hdm hui
        subst heq
        rw [hm] at hm2
        injection hm2 with hmm
        rw [← hmm]
  · rw [if_neg hp]
    apply foldl_stepDvx_of_not_mem
    intro u hu hui
    obtain ⟨d2, hd2, m, hm2, hu2⟩ := mem_pairByCodeUpdates.1 hu
    subst hu2
    have hd2s : d2 ∈ store := List.mem_of_mem_filter hd2
    have heq : d2 = d := hinj d2 hd2s d hdm hui
    subst heq
    have hpd := (List.mem_filter.1 hd2).2
    simp only [decide_eq_true_eq] at hpd
    exact hp hpd

theorem qaMapGet_mapSet (m : List (String × (ℚ × String))) (k : String)
    (v : ℚ × String) (k2 : String) :
    qaMapGet (mapSet m k v) k2 = if k2 = k then some v else qaMapGet m k2 := by
  induction m with
  | nil => simp [mapSet, qaMapGet]
  | cons p rest ih =>
    obtain ⟨k1, v1⟩ := p
    by_cases h1 : k1 = k
    · subst h1
      by_cases h2 : k2 = k1 <;> simp [mapSet, qaMapGet, h2]
    · by_cases h2 : k2 = k1
      · subst h2
        simp [mapSet, qaMapGet, h1, Ne.symm h1]
      · simp [mapSet, qaMapGet, h1, h2, ih]

theorem qaMapGet_buildQaMap_isSome (qas : List QaEntryLite) (k : String) :
    (qaMapGet (buildQaMap qas) k).isSome ↔
      ∃ qa ∈ qas, qa.defect_code ≠ "" ∧ qa.defect_location_code ≠ "" ∧
        qaKey qa.defect_code qa.defect_location_code = k := by
  have main : ∀ m : List (String × (ℚ × String)),
      (qaMapGet (qas.foldl
        (fun m qa =>
          if qa.defect_code ≠ "" ∧ qa.defect_location_code ≠ "" then
            mapSet m (qaKey qa.defect_code qa.defect_location_code) (qa.s_no, qa.concern)
          else m) m) k).isSome ↔
        ((∃ qa ∈ qas, qa.defect_code ≠ "" ∧ qa.defect_location_code ≠ "" ∧
          qaKey qa.defect_code qa.defect_location_code = k) ∨
          (qaMapGet m k).isSome) := by
    induction qas with
    | nil => intro m; simp
    | cons qa rest ih =>
      intro m
      rw [List.foldl_cons, ih]
      by_cases hv : qa.defect_code ≠ "" ∧ qa.defect_location_code ≠ ""
      · rw [if_pos hv]
        by_cases hk : k = qaKey qa.defect_code qa.defect_location_code
        · simp only [qaMapGet_mapSet, if_pos hk, Option.isSome_some]
          constructor
          · intro _
            exact Or.inl ⟨qa, List.mem_cons_self qa rest, hv.1, hv.2, hk.symm⟩
          · intro _
            exact Or.inr trivial
        · simp only [qaMapGet_mapSet, if_neg hk]
          constructor
          · rintro (⟨qa2, h2, hh⟩ | hs)
            · exact Or.inl ⟨qa2, List.mem_cons_of_mem qa h2, hh⟩
            · exact Or.inr hs
          · rintro (⟨qa2, h2, hh⟩ | hs)
            · rcases List.mem_cons.1 h2 with heq | h3
              · subst heq
                exact absurd hh.2.2.symm hk
              · exact Or.inl ⟨qa2, h3, hh⟩
            · exact Or.inr hs
      · rw [if_neg hv]
        constructor
        · rintro (⟨qa2, h2, hh⟩ | hs)
          · exact Or.inl ⟨qa2, List.mem_cons_of_mem qa h2, hh⟩
          · exact Or.inr hs
        · rintro (⟨qa2, h2, hh⟩ | hs)
          · rcases List.mem_cons.1 h2 with heq | h3
            · subst heq
              exact absurd ⟨hh.1, hh.2.1⟩ hv
            · exact Or.inl ⟨qa2, h3, hh⟩
          · exact Or.inr hs
  have base := main []
  simpa [buildQaMap, qaMapGet] using base

/-- C4: the deterministic phase builds its lookup from exactly the concerns
with both code fields non-empty, keyed case-insensitively on the trimmed
pair, and pairs every fetched unpaired defect whose key is in the lookup
with method "code" (the stored name of the exact-code method) and score 1.0,
while a defect with no key match is left untouched (still unpaired). -/
theorem c4_deterministic_phase (qas : List QaEntryLite) (store : List DvxDefect)
    (h : (store.map DvxDefect.id).Nodup) :
    (∀ k, (qaMapGet (buildQaMap qas) k).isSome ↔
      ∃ qa ∈ qas, qa.defect_code ≠ "" ∧ qa.defect_location_code ≠ "" ∧
        qaKey qa.defect_code qa.defect_location_code = k) ∧
    (∀ i d m, store.get? i = some d → d.pairing_status = "not_paired" →
      qaMapGet (buildQaMap qas) (dvxKey d) = some m →
      (pairByCodeRun qas store).get? i =
        some { d with
                pairing_status := "paired"
                pairing_method := some "code"
                match_score := some 1
                qa_matrix_sno := some m.1 }) ∧
    (∀ i d, store.get? i = some d → d.pairing_status = "not_paired" →
      qaMapGet (buildQaMap qas) (dvxKey d) = none →
      (pairByCodeRun qas store).get? i = some d) := by
  refine ⟨fun k => qaMapGet_buildQaMap_isSome qas k, ?_, ?_⟩
  · intro i d m hd hp hm
    rw [pairByCodeRun_get? qas store h i d hd]
    simp only [hp, if_true, hm]
    rfl
  · intro i d hd hp hm
    rw [pairByCodeRun_get? qas store h i d hd]
    simp only [hp, if_true, hm]

/-- Witness for C4 at a concrete store: Scenario C — a defect with code A1 at
location L2 and a concern with the same pair populated is paired with score
1.0 by the deterministic phase. -/
theorem c4_deterministic_phase_witness :
    (qaMapGet (buildQaMap [c2Qa]) (qaKey "A1" "L2")).isSome ∧
    (pairByCodeRun [c2Qa] [c2Defect]).get? 0 = some c2PairedDefect := by
  constructor
  · exact ((c4_deterministic_phase [c2Qa] [c2Defect] (by decide)).1 (qaKey "A1" "L2")).2
      ⟨c2Qa, List.mem_cons_self c2Qa [], by decide, by decide, rfl⟩
  · have hrun := (c4_deterministic_phase [c2Qa] [c2Defect] (by decide)).2.1 0 c2Defect
      ((5 : ℚ), "Scratch on panel") rfl rfl (by decide)
    rw [hrun]
    rfl

theorem processSemanticMatch_eq_map (batch store : List DvxDefect) (m : AiMatch) :
    processSemanticMatch batch store m = store.map (fun x => semStep batch x m) := by
  unfold processSemanticMatch semStep
  cases h1 : batch.get? m.defectIndex with
  | none => simp
  | some dvx =>
    cases h2 : m.matchedSNo with
    | none => simp
    | some sno =>
      by_cases hc : m.confidence ≥ 1 / 2
      · simp only [if_pos hc]
      · simp only [if_neg hc, List.map_id']

theorem processSemanticMatches_get? (batch : List DvxDefect) (ms : List AiMatch)
    (store : List DvxDefect) (i : Nat) :
    (processSemanticMatches batch ms store).get? i =
      (store.get? i).map (fun d => ms.foldl (semStep batch) d) := by
  induction ms generalizing store with
  | nil =>
    simp only [processSemanticMatches, List.foldl_nil]
    cases h : store.get? i <;> rfl
  | cons m ms ih =>
    show (processSemanticMatches batch ms (processSemanticMatch batch store m)).get? i = _
    rw [ih, processSemanticMatch_eq_map, List.get?_map]
    cases h : store.get? i <;> rfl

theorem semStep_skip {batch : List DvxDefect} {d : DvxDefect}
    (hid : ∀ dvx ∈ batch, dvx.id ≠ d.id) (m : AiMatch) :
    semStep batch d m = d := by
  cases h1 : batch.get? m.defectIndex with
  | none =>
    rw [List.get?_eq_getElem?] at h1
    simp [semStep, h1]
  | some dvx =>
    have hmem : dvx ∈ batch := List.get?_mem h1
    have hne : d.id ≠ dvx.id := fun he => hid dvx hmem he.symm
    cases h2 : m.matchedSNo with
    | none =>
      rw [List.get?_eq_getElem?] at h1
      simp [semStep, h1, h2]
    | some sno =>
      by_cases hc : m.confidence ≥ 1 / 2
      · simp only [semStep, h1, h2]
        rw [if_pos hc, if_neg hne]
      · simp only [semStep, h1, h2]
        rw [if_neg hc]

theorem foldl_semStep_skip {batch : List DvxDefect} {d : DvxDefect} {ms : List AiMatch}
    (hid : ∀ dvx ∈ batch, dvx.id ≠ d.id) :
    ms.foldl (semStep batch) d = d := by
  induction ms with
  | nil => rfl
  | cons m ms ih =>
    rw [List.foldl_cons, semStep_skip hid m]
    exact ih

/-- C2 counterexample: there is no AlreadyPaired failure path.  Starting from
a snapshot holding one unpaired defect, a deterministic run pairs it to
concern 5; a semantic update computed from the same snapshot (a legal
interleaving, since the update is keyed by id with no state guard) is then
applied to the already-Paired defect and silently re-points it to concern
9 — the existing pairing fields are overwritten, with no error anywhere. -/
theorem c2_overwrite_counterexample :
    pairByCodeRun [c2Qa] [c2Defect] = [c2PairedDefect] ∧
    c2PairedDefect.pairing_status = "paired" ∧
    processSemanticMatches [c2Defect] [c2Match] [c2PairedDefect] = [c2Overwritten] ∧
    c2Overwritten.pairing_status = "paired" ∧
    c2Overwritten.qa_matrix_sno ≠ c2PairedDefect.qa_matrix_sno ∧
    c2Overwritten.pairing_method ≠ c2PairedDefect.pairing_method := by
  refine ⟨by decide, rfl, ?_, rfl, by decide, by decide⟩
  norm_num [processSemanticMatches, processSemanticMatch, c2Match, c2PairedDefect,
    c2Defect, c2Overwritten, semanticUpdateFields]

/-- C2 amended: within one sequential run, both pairing functions read only
the defects fetched as `not_paired`, so a defect that is already Paired when
the run starts keeps its pairing fields; but the update itself carries no
state precondition and there is no AlreadyPaired error, so an update
computed against a stale snapshot silently overwrites (the
counterexample). -/
theorem c2_pairing_guard_amended (qas : List QaEntryLite) (store : List DvxDefect)
    (ms : List AiMatch) (h : (store.map DvxDefect.id).Nodup) :
    ∀ i d, store.get? i = some d → d.pairing_status ≠ "not_paired" →
      (pairByCodeRun qas store).get? i = some d ∧
      (pairBySemanticRun store ms).get? i = some d := by
  intro i d hd hp
  have hdm : d ∈ store := List.get?_mem hd
  have hinj : ∀ x ∈ store, ∀ y ∈ store, x.id = y.id → x = y :=
    fun x hx y hy hxy => List.inj_on_of_nodup_map h hx hy hxy
  constructor
  · rw [pairByCodeRun_get? qas store h i d hd, if_neg hp]
  · rw [pairBySemanticRun, processSemanticMatches_get?, hd, Option.map_some']
    congr 1
    apply foldl_semStep_skip
    intro dvx hdvx heq
    have hds : dvx ∈ store := List.mem_of_mem_filter hdvx
    have hde : dvx = d := hinj dvx hds d hdm heq
    subst hde
    have hpd := (List.mem_filter.1 hdvx).2
    simp only [decide_eq_true_eq] at hpd
    exact hp hpd

/-- Witness for C2 amended: an already-paired defect is untouched by both runs. -/
theorem c2_pairing_guard_amended_witness :
    (pairByCodeRun [c2Qa] [c2PairedDefect]).get? 0 = some c2PairedDefect ∧
    (pairBySemanticRun [c2PairedDefect] [c2Match]).get? 0 = some c2PairedDefect :=
  c2_pairing_guard_amended [c2Qa] [c2PairedDefect] [c2Match] (by decide) 0
    c2PairedDefect rfl (by decide)

/-- C1 counterexample: a non-null candidate with confidence 0.4 — at least the
claimed 0.3 threshold — is rejected by the code (the defect stays
`not_paired`), because the handler accepts only at confidence ≥ 0.5. -/
theorem c1_threshold_counterexample :
    pairBySemanticRun [c1Defect] [c1Match] = [c1Defect] ∧
    c1Defect.pairing_status = "not_paired" ∧
    c1Match.matchedSNo.isSome = true ∧
    c1Match.confidence ≥ 3 / 10 := by
  refine ⟨?_, rfl, rfl, by norm_num [c1Match]⟩
  norm_num [pairBySemanticRun, processSemanticMatches, processSemanticMatch,
    c1Match, c1Defect]

/-- C1 amended: a candidate is accepted — the defect becomes Paired with
method "semantic" and score equal to the candidate's confidence — exactly
when the candidate is non-null and its confidence is at least 0.5; a null
candidate or one below 0.5 leaves the store unchanged, so the defect
remains Unpaired. -/
theorem c1_threshold_amended (batch store : List DvxDefect) (m : AiMatch) :
    (∀ dvx, batch.get? m.defectIndex = some dvx → ∀ sno, m.matchedSNo = some sno →
      m.confidence ≥ 1 / 2 → ∀ d ∈ store, d.id = dvx.id →
        semanticUpdateFields d sno m.confidence ∈ processSemanticMatch batch store m) ∧
    ((m.matchedSNo = none ∨ m.confidence < 1 / 2) →
      processSemanticMatch batch store m = store) := by
  constructor
  · intro dvx hdvx sno hsno hc d hd hid
    have hstep : semStep batch d m = semanticUpdateFields d sno m.confidence := by
      simp only [semStep, hdvx, hsno]
      rw [if_pos hc, if_pos hid]
    rw [processSemanticMatch_eq_map]
    have hmem := List.mem_map_of_mem (fun x => semStep batch x m) hd
    simpa [hstep] using hmem
  · rintro (hn | hc)
    · have hstep : ∀ x : DvxDefect, semStep batch x m = x := by
        intro x
        cases h1 : batch.get? m.defectIndex with
        | none => simp only [semStep, h1]
        | some dvx => simp only [semStep, h1, hn]
      rw [processSemanticMatch_eq_map]
      simp [hstep]
    · have hstep : ∀ x : DvxDefect, semStep batch x m = x := by
        intro x
        cases h1 : batch.get? m.defectIndex with
        | none => simp only [semStep, h1]
        | some dvx =>
          cases h2 : m.matchedSNo with
          | none => simp only [semStep, h1, h2]
          | some sno =>
            simp only [semStep, h1, h2]
            rw [if_neg (not_le.2 hc)]
      rw [processSemanticMatch_eq_map]
      simp [hstep]

/-- Witness for C1 amended: a 0.6-confidence candidate is accepted with
method "semantic" and score 0.6; the 0.4-confidence candidate leaves the
store unchanged. -/
theorem c1_threshold_amended_witness :
    semanticUpdateFields c1Defect 7 (3 / 5) ∈
      processSemanticMatch [c1Defect] [c1Defect] c1AcceptMatch ∧
    processSemanticMatch [c1Defect] [c1Defect] c1Match = [c1Defect] := by
  constructor
  · exact (c1_threshold_amended [c1Defect] [c1Defect] c1AcceptMatch).1 c1Defect rfl 7 rfl
      (by norm_num [c1AcceptMatch]) c1Defect (List.mem_cons_self c1Defect []) rfl
  · exact (c1_threshold_amended [c1Defect] [c1Defect] c1Match).2
      (Or.inr (by norm_num [c1Match]))

theorem mem_synthMatches (start : Nat) (batch : List DVXEntry) (reason : String)
    (j : Nat) (hj : j < batch.length) :
    (⟨start + j, none, 0, reason⟩ : AiMatch) ∈ synthMatches start batch reason := by
  unfold synthMatches
  have hlen : j < (List.mapIdx
      (fun idx (_ : DVXEntry) => (⟨start + idx, none, 0, reason⟩ : AiMatch))
      batch).length := by
    rw [List.length_mapIdx]
    exact hj
  have hget := List.get_mapIdx batch
    (fun idx _ => (⟨start + idx, none, 0, reason⟩ : AiMatch)) j hj hlen
  have hmem := List.get_mem _ j hlen
  rw [hget] at hmem
  exact hmem

/-- C7 counterexample: a batch whose oracle response is well-formed but
carries neither `matches` nor `error` contributes nothing to the result
set — the batch's defect appears in no returned match, with no reason,
even though it was submitted (it is the sole member of the sole batch). -/
theorem c7_silent_drop_counterexample :
    aiMatchDefects [c7Entry] c7Oracle = [] ∧
    aiBatchesGo 0 [c7Entry] = [(0, [c7Entry])] := by
  constructor
  · simp [aiMatchDefects, aiBatchesGo, perBatchResult, c7Oracle]
  · simp [aiBatchesGo]

/-- C7 amended: when a batch fails with a transport/invocation error or its
response carries an `error` field, every defect of that batch appears in
the combined result with a null candidate, confidence 0 and a reason, and
batches contribute independently; but a response with neither `matches` nor
`error` silently drops its whole batch from the result set (the
counterexample), and in the pair-by-semantic handler a 429/402 aborts the
entire run. -/
theorem c7_batch_failure_amended (entries : List DVXEntry) (oracle : Nat → BatchResponse) :
    ∀ sb ∈ aiBatchesGo 0 entries, ∀ j, j < sb.2.length →
      (oracle sb.1 = BatchResponse.invokeError →
        (⟨sb.1 + j, none, 0, "AI matching failed"⟩ : AiMatch) ∈
          aiMatchDefects entries oracle) ∧
      (∀ e, oracle sb.1 = BatchResponse.dataResp none (some e) →
        (⟨sb.1 + j, none, 0, e⟩ : AiMatch) ∈ aiMatchDefects entries oracle) := by
  intro sb hsb j hj
  constructor
  · intro ho
    rw [aiMatchDefects]
    apply List.mem_flatten.2
    refine ⟨perBatchResult sb.1 sb.2 (oracle sb.1), List.mem_map_of_mem _ hsb, ?_⟩
    rw [ho]
    exact mem_synthMatches sb.1 sb.2 "AI matching failed" j hj
  · intro e ho
    rw [aiMatchDefects]
    apply List.mem_flatten.2
    refine ⟨perBatchResult sb.1 sb.2 (oracle sb.1), List.mem_map_of_mem _ hsb, ?_⟩
    rw [ho]
    exact mem_synthMatches sb.1 sb.2 e j hj

/-- Witness for C7 amended: with a failing oracle, the sole defect of the
sole batch appears in the results with the failure reason. -/
theorem c7_batch_failure_amended_witness :
    (⟨0, none, 0, "AI matching failed"⟩ : AiMatch) ∈
      aiMatchDefects [c7Entry] c7ErrOracle := by
  have happ := c7_batch_failure_amended [c7Entry] c7ErrOracle (0, [c7Entry])
    (by simp [aiBatchesGo]) 0 (by decide)
  exact happ.1 rfl

theorem getDelta_addQty (m : List (ℚ × ℚ)) (k q k2 : ℚ) :
    getDelta (addQty m k q) k2 =
      if k2 = k then some ((getDelta m k).getD 0 + q) else getDelta m k2 := by
  induction m with
  | nil => by_cases h : k2 = k <;> simp [addQty, getDelta, h]
  | cons p rest ih =>
    obtain ⟨k1, q1⟩ := p
    by_cases h1 : k1 = k
    · subst h1
      by_cases h2 : k2 = k1 <;> simp [addQty, getDelta, h2]
    · by_cases h2 : k2 = k1
      · subst h2
        simp [addQty, getDelta, h1, Ne.symm h1]
      · simp [addQty, getDelta, h1, h2, Ne.symm h1, ih]

theorem getDelta_sumByConcern (ds : List PairedDefect) (k : ℚ) :
    getDelta (sumByConcern ds) k =
      if ds.filter (fun d => d.pairedConcernKey = k) = [] then none
      else
        some (((ds.filter (fun d => d.pairedConcernKey = k)).map
          PairedDefect.quantity).sum) := by
  have main : ∀ m : List (ℚ × ℚ),
      getDelta (ds.foldl (fun m d => addQty m d.pairedConcernKey d.quantity) m) k =
        if ds.filter (fun d => d.pairedConcernKey = k) = [] then getDelta m k
        else
          some ((getDelta m k).getD 0 +
            ((ds.filter (fun d => d.pairedConcernKey = k)).map
              PairedDefect.quantity).sum) := by
    induction ds with
    | nil => intro m; simp
    | cons d rest ih =>
      intro m
      rw [List.foldl_cons, ih]
      have hfc : (d :: rest).filter (fun x => x.pairedConcernKey = k) =
          if d.pairedConcernKey = k then
            d :: rest.filter (fun x => x.pairedConcernKey = k)
          else rest.filter (fun x => x.pairedConcernKey = k) := by
        by_cases hd : d.pairedConcernKey = k <;> simp [List.filter_cons, hd]
      rw [hfc]
      by_cases hd : d.pairedConcernKey = k
      · rw [if_pos hd, getDelta_addQty, hd, if_pos rfl]
        by_cases hrest : rest.filter (fun x => x.pairedConcernKey = k) = []
        · rw [if_pos hrest]
          simp [hrest]
        · rw [if_neg hrest]
          simp [hrest, add_assoc]
      · rw [if_neg hd, getDelta_addQty]
        have hne : ¬k = d.pairedConcernKey := fun he => hd he.symm
        rw [if_neg hne]
  unfold sumByConcern
  rw [main []]
  by_cases hall : ds.filter (fun d => d.pairedConcernKey = k) = [] <;>
    simp [hall, getDelta]

theorem subFromLatest_addToLatest (w : List ℚ) (q : ℚ) :
    subFromLatest (addToLatest w q) q = w := by
  by_cases h : w = []
  · subst h
    simp [addToLatest, subFromLatest]
  · rw [addToLatest, dif_neg h]
    have hne : w.dropLast ++ [w.getLast h + q] ≠ [] := by simp
    rw [subFromLatest, dif_neg hne]
    rw [List.dropLast_concat, List.getLast_concat]
    rw [add_sub_cancel_right]
    exact List.dropLast_append_getLast h

/-- C8: the apply step adds, to each touched concern's newest weekly bucket,
the sum of the quantities of all defects paired to it — once per concern,
via the grouped delta set — and the undo step subtracts the same deltas,
restoring every touched concern's weekly window exactly. -/
theorem c8_apply_undo (store : List ApplyConcern) (ds : List PairedDefect) :
    (∀ c ∈ store, ∀ q, getDelta (sumByConcern ds) c.key = some q →
      (q = ((ds.filter (fun d => d.pairedConcernKey = c.key)).map
          PairedDefect.quantity).sum ∧
        { c with weeklyRecurrence := addToLatest c.weeklyRecurrence q } ∈
          applyRun store ds)) ∧
    undoRun (applyRun store ds) ds = store := by
  constructor
  · intro c hc q hq
    constructor
    · rw [getDelta_sumByConcern] at hq
      split at hq
      · cases hq
      · injection hq with hqq
        exact hqq.symm
    · have hmem := List.mem_map_of_mem
        (fun c : ApplyConcern =>
          match getDelta (sumByConcern ds) c.key with
          | some q => { c with weeklyRecurrence := addToLatest c.weeklyRecurrence q }
          | none => c) hc
      rw [applyRun]
      simpa [hq] using hmem
  · rw [undoRun, applyRun, List.map_map]
    conv_rhs => rw [← List.map_id store]
    apply List.map_congr_left
    intro c _
    cases hq : getDelta (sumByConcern ds) c.key with
    | none => simp [Function.comp, hq]
    | some q => simp [Function.comp, hq, subFromLatest_addToLatest]

/-- Witness for C8 at Scenario E: quantities 3 and 4 on the same concern add
7 to the newest bucket in one call, and undo restores the window. -/
theorem c8_apply_undo_witness :
    getDelta (sumByConcern c8Defects) c8Concern.key = some 7 ∧
    (7 : ℚ) = ((c8Defects.filter
      (fun d => d.pairedConcernKey = c8Concern.key)).map PairedDefect.quantity).sum ∧
    { c8Concern with weeklyRecurrence := addToLatest c8Concern.weeklyRecurrence 7 } ∈
      applyRun [c8Concern] c8Defects ∧
    addToLatest c8Concern.weeklyRecurrence 7 = [0, 0, 0, 0, 0, 7] ∧
    undoRun (applyRun [c8Concern] c8Defects) c8Defects = [c8Concern] := by
  have h := c8_apply_undo [c8Concern] c8Defects
  have hq : getDelta (sumByConcern c8Defects) c8Concern.key = some 7 := by
    norm_num [sumByConcern, addQty, getDelta, c8Defects, c8Concern, List.foldl_cons]
  have hpart := h.1 c8Concern (List.mem_cons_self _ _) 7 hq
  refine ⟨hq, hpart.1, hpart.2, ?_, h.2⟩
  have hne : c8Concern.weeklyRecurrence ≠ [] := by simp [c8Concern]
  rw [addToLatest, dif_neg hne]
  norm_num [c8Concern]

theorem recalculateStatuses_status_blind
    (n : ℚ) (src sta des con dc dlc : String) (dr rec : ℚ) (w : List ℚ) (rcpd : ℚ)
    (t : TrimScores) (c : ChassisScores) (f : FinalScores) (q : QControlScores)
    (qd : QControlDetailScores) (cr : ControlRating) (gq : GuaranteedQuality)
    (s1 s2 s3 x y z act rsp tgt : String) :
    recalculateStatuses
      ⟨n, src, sta, des, con, dc, dlc, dr, rec, w, rcpd, t, c, f, q, qd, cr, gq,
        s1, s2, s3, act, rsp, tgt⟩ =
    recalculateStatuses
      ⟨n, src, sta, des, con, dc, dlc, dr, rec, w, rcpd, t, c, f, q, qd, cr, gq,
        x, y, z, act, rsp, tgt⟩ :=
  rfl

theorem recalculateStatuses_fixed (e : QAMatrixEntry)
    (h1 : e.workstationStatus =
      if e.recurrence = 0 ∧ mfgRating e ≥ e.defectRating then "OK" else "NG")
    (h2 : e.mfgStatus = if mfgRating e ≥ e.defectRating then "OK" else "NG")
    (h3 : e.plantStatus = if plantRating e ≥ e.defectRating then "OK" else "NG") :
    recalculateStatuses e = e := by
  rw [recalculateStatuses, ← h1, ← h2, ← h3]

/-- C6 counterexample: the import path recomputes the recurrence total from
the weekly cells (ignoring the exported recurrence column), so a Concern
whose stored recurrence (7) disagrees with its weekly window (all zero)
does not survive the export → import cycle. -/
theorem c6_roundtrip_counterexample :
    ((loadFromExcelRow (exportRow c6Bad)).map QAMatrixEntry.recurrence) = some 0 ∧
    c6Bad.recurrence = 7 ∧
    loadFromExcelRow (exportRow c6Bad) ≠ some c6Bad := by
  have h1 : ((loadFromExcelRow (exportRow c6Bad)).map QAMatrixEntry.recurrence) = some 0 := by
    rw [exportRow, loadFromExcelRow]
    norm_num [c6Bad, c6Good, cellAt, List.getD, jsReduceSum, recalculateStatuses]
  refine ⟨h1, rfl, ?_⟩
  intro hcontra
  rw [hcontra] at h1
  simp only [Option.map_some', Option.some_inj] at h1
  exact absurd h1 (by norm_num [c6Bad, c6Good])

/-- C6 amended: for every Concern whose stored fields satisfy the maintained
invariants — six weekly buckets, non-zero serial, trimmed text fields,
recurrence equal to the weekly sum, RC+DR equal to rating + recurrence,
guaranteed quality unset, and statuses equal to the recalculated
statuses — exporting the fixed column row and re-importing it yields the
identical Concern; in particular null and 0 checkpoint values survive the
cycle (the witness entry carries both). -/
theorem c6_roundtrip_amended (e : QAMatrixEntry) (w1 w2 w3 w4 w5 w6 : ℚ)
    (hw : e.weeklyRecurrence = [w1, w2, w3, w4, w5, w6])
    (hsno : e.sNo ≠ 0)
    (hsrc : jsTrim e.source = e.source)
    (hsta : jsTrim e.operationStation = e.operationStation)
    (hdes : jsTrim e.designation = e.designation)
    (hcon : jsTrim e.concern = e.concern)
    (hdc : jsTrim e.defectCode = e.defectCode)
    (hdlc : jsTrim e.defectLocationCode = e.defectLocationCode)
    (hact : jsTrim e.mfgAction = e.mfgAction)
    (hrsp : jsTrim e.resp = e.resp)
    (htgt : jsTrim e.target = e.target)
    (hrec : e.recurrence = w1 + w2 + w3 + w4 + w5 + w6)
    (hrcpd : e.recurrenceCountPlusDefect = e.defectRating + e.recurrence)
    (hgq : e.guaranteedQuality = ⟨none, none, none⟩)
    (hws : e.workstationStatus =
      if e.recurrence = 0 ∧ mfgRating e ≥ e.defectRating then "OK" else "NG")
    (hmfg : e.mfgStatus = if mfgRating e ≥ e.defectRating then "OK" else "NG")
    (hpl : e.plantStatus = if plantRating e ≥ e.defectRating then "OK" else "NG") :
    loadFromExcelRow (exportRow e) = some e := by
  rw [exportRow, hw, loadFromExcelRow]
  simp only [List.map_cons, List.map_nil]
  norm_num [cellAt, List.getD, hsno, jsReduceSum, hsrc, hsta, hdes, hcon, hdc, hdlc,
    hact, hrsp, htgt]
  rw [← hrec, ← hrcpd, ← hw, ← hgq]
  rw [recalculateStatuses_status_blind (x := e.workstationStatus) (y := e.mfgStatus)
    (z := e.plantStatus)]
  exact recalculateStatuses_fixed e hws hmfg hpl

/-- Witness for C6 amended: a concrete invariant-respecting Concern — with a
null checkpoint (trim T20) and a zero checkpoint (chassis C10) — survives
export → import unchanged. -/
theorem c6_roundtrip_amended_witness :
    loadFromExcelRow (exportRow c6Good) = some c6Good ∧
    c6Good.trim.T20 = none ∧ c6Good.chassis.C10 = some 0 :=
  ⟨c6_roundtrip_amended c6Good 0 0 0 0 0 0 rfl (by norm_num [c6Good])
      (by decide) (by decide) (by decide) (by decide) (by decide) (by decide)
      (by decide) (by decide) (by decide)
      (by norm_num [c6Good]) (by norm_num [c6Good]) rfl
      (by norm_num [c6Good, mfgRating, trimSum, chassisSum, finalSumNoRT, emptyTrim,
        emptyChassis, emptyFinal, optD])
      (by norm_num [c6Good, mfgRating, trimSum, chassisSum, finalSumNoRT, emptyTrim,
        emptyChassis, emptyFinal, optD])
      (by norm_num [c6Good, plantRating, qControlSum, qcDetailSum, emptyQControl,
        emptyQCDetail, emptyFinal, optD]),
    rfl, rfl⟩

/-- Witness for C10 amended at concrete rows. -/
theorem c10_load_defaults_amended_witness :
    (dbRowToEntry blankDbRow).weeklyRecurrence = [0, 0, 0, 0, 0, 0] ∧
    (dbRowToEntry blankDbRow).defectRating = 1 ∧
    (dbRowToEntry blankDbRow).source = "" ∧
    (dbRowToEntry blankDbRow).workstationStatus = "NG" ∧
    (dbRowToEntry c10Row).weeklyRecurrence = [] ∧
    (dbRowToEntry c10Row).workstationStatus = "ok" :=
  ⟨(c10_load_defaults_amended blankDbRow).1 rfl,
    (c10_load_defaults_amended blankDbRow).2.2.1 rfl,
    (c10_load_defaults_amended blankDbRow).2.2.2.2.1 rfl,
    (c10_load_defaults_amended blankDbRow).2.2.2.2.2.1 (Or.inl rfl),
    (c10_load_defaults_amended c10Row).2.1 [] rfl,
    (c10_load_defaults_amended c10Row).2.2.2.2.2.2 "ok" (by decide) rfl⟩

end QAMatrix
